import Mathlib

/-!
Shallow embedding of the CSCB registration form component
(src/components/RegistrationForm.js, with the earlier revision of the same
component kept alongside it). The component's pure logic — field validation,
progress computation, the dependent-field reset in the input handler, identity
construction and the submit flow writing to local storage — is translated into
executable Lean definitions, and the specification's claims are proved about
them. Nondeterministic inputs of the JavaScript (the ISO timestamp and
Date.now()) are passed as explicit parameters; localStorage is modelled as a
key-value map from strings to optional strings.
-/

namespace CSCB

/-- The five field names of the registration form. -/
inductive FieldName where
  | studentNumber
  | lastName
  | firstName
  | program
  | yearLevel
deriving DecidableEq, Repr

/-- The list of all five field names (the keys of the form state object). -/
def FieldName.elems : List FieldName :=
  [FieldName.studentNumber, FieldName.lastName, FieldName.firstName,
   FieldName.program, FieldName.yearLevel]

/-- The formData React state: five raw string fields, all initially empty. -/
structure FormData where
  studentNumber : String
  lastName : String
  firstName : String
  program : String
  yearLevel : String
deriving DecidableEq, Repr

/-- Read a field of formData by name (formData[field] in the JavaScript). -/
def FormData.get (fd : FormData) : FieldName → String
  | FieldName.studentNumber => fd.studentNumber
  | FieldName.lastName => fd.lastName
  | FieldName.firstName => fd.firstName
  | FieldName.program => fd.program
  | FieldName.yearLevel => fd.yearLevel

/-- Functional update of one field of formData
(the spread \x7b...prevData, [name]: value\x7d in the JavaScript). -/
def FormData.set (fd : FormData) (name : FieldName) (value : String) : FormData :=
  match name with
  | FieldName.studentNumber => { fd with studentNumber := value }
  | FieldName.lastName => { fd with lastName := value }
  | FieldName.firstName => { fd with firstName := value }
  | FieldName.program => { fd with program := value }
  | FieldName.yearLevel => { fd with yearLevel := value }

/-- The two entries of the programs array. -/
def programs : List String :=
  ["Bachelor of Science in Information Technology",
   "Diploma in Information Technology"]

/-- getYearLevels: the year-level choices derived from the chosen program. -/
def getYearLevels (program : String) : List String :=
  if program = "Bachelor of Science in Information Technology" then
    ["1st Year", "2nd Year", "3rd Year", "4th Year"]
  else if program = "Diploma in Information Technology" then
    ["1st Year", "2nd Year", "3rd Year"]
  else
    []

/-- The count of non-empty fields among the four always-visible base fields
(studentNumber, lastName, firstName, program), as computed inside
calculateProgress. -/
def baseFilledCount (fd : FormData) : Nat :=
  (([FieldName.studentNumber, FieldName.lastName, FieldName.firstName,
     FieldName.program]).filter (fun f => fd.get f != "")).length

/-- calculateProgress of the later revision: once a program is chosen the
denominator is 5 and a non-empty yearLevel counts, otherwise progress is
baseFilled/4 * 100. The JavaScript computes in binary floating point; every
value this development reasons about (0, 100, and quarters times 100) is
exactly representable there, so the rational-number model is faithful. -/
def calculateProgress (fd : FormData) : Rat :=
  let baseFilled := baseFilledCount fd
  if fd.program != "" then
    let totalFilled := if fd.yearLevel != "" then baseFilled + 1 else baseFilled
    ((totalFilled : Rat) / 5) * 100
  else
    ((baseFilled : Rat) / 4) * 100

/-- Consume exactly k characters satisfying Char.isDigit (the regex fragment
\d\x7bk\x7d) from the front of a character list, returning the remainder. -/
def digitRun : Nat → List Char → Option (List Char)
  | 0, rest => some rest
  | _ + 1, [] => none
  | k + 1, c :: rest => if c.isDigit then digitRun k rest else none

/-- Consume one expected literal character from the front of a character
list, returning the remainder. -/
def expectChar (c : Char) : List Char → Option (List Char)
  | [] => none
  | x :: rest => if x = c then some rest else none

/-- The anchored strict student-ID regex of the later revision,
translated to a character-list matcher: 4 digits, hyphen, 5 digits,
then exactly the literal tail -TG-0 and the end of the string. -/
def matchesStudentIdPattern (s : String) : Bool :=
  ((digitRun 4 s.data).bind (expectChar '-')).bind (digitRun 5)
    == some ['-', 'T', 'G', '-', '0']

/-- The whitespace class of a JavaScript regex (\s): ASCII space and control
whitespace, NBSP, Ogham space mark, the U+2000 to U+200A range, line and
paragraph separators, narrow no-break space, medium mathematical space,
ideographic space, and the BOM. -/
def isJsSpace (c : Char) : Bool :=
  c = ' ' || c = '\t' || c = '\n' || c = '\x0b' || c = '\x0c' || c = '\r' ||
  c.toNat = 0xa0 || c.toNat = 0x1680 ||
  (0x2000 ≤ c.toNat && c.toNat ≤ 0x200a) ||
  c.toNat = 0x2028 || c.toNat = 0x2029 || c.toNat = 0x202f ||
  c.toNat = 0x205f || c.toNat = 0x3000 || c.toNat = 0xfeff

/-- A character of the name character class [a-zA-Z\s]. -/
def isNameChar (c : Char) : Bool :=
  c.isAlpha || isJsSpace c

/-- validateField of the later revision: a non-empty student number must match
the strict pattern; non-empty first/last names must be letters and whitespace
only; every other case (including every empty value) yields the empty error. -/
def validateField (name : FieldName) (value : String) : String :=
  let error := ""
  let error :=
    if name = FieldName.studentNumber && !value.isEmpty &&
       !matchesStudentIdPattern value then
      "Student ID must follow format: YYYY-NNNNN-TG-0 (e.g., 2023-00000-TG-0)"
    else error
  let error :=
    if (name = FieldName.lastName || name = FieldName.firstName) &&
       !value.isEmpty && !(value.data.all isNameChar) then
      "Name should contain only letters"
    else error
  error

/-- A character of the earlier revision's student-number class [a-zA-Z0-9-]. -/
def isAlnumHyphen (c : Char) : Bool :=
  c.isAlpha || c.isDigit || c = '-'

/-- validateField of the earlier revision: a non-empty student number may be
any mix of letters, digits and hyphens; the name rule is identical to the
later revision. -/
def validateField_v0 (name : FieldName) (value : String) : String :=
  let error := ""
  let error :=
    if name = FieldName.studentNumber && !value.isEmpty &&
       !(value.data.all isAlnumHyphen) then
      "Student number should contain only letters, numbers, and hyphens"
    else error
  let error :=
    if (name = FieldName.lastName || name = FieldName.firstName) &&
       !value.isEmpty && !(value.data.all isNameChar) then
      "Name should contain only letters"
    else error
  error

/-- The component state the submit flow depends on: the form data and the
per-field error map. The JavaScript error object starts empty and only ever
receives string values; a total map defaulting to the empty string is
observationally equivalent for every use in the component. -/
structure FormState where
  formData : FormData
  fieldErrors : FieldName → String

/-- handleInputChange: recompute the changed field's error, store the raw
value, and reset yearLevel to empty when the changed field is the program. -/
def handleInputChange (st : FormState) (name : FieldName) (value : String) :
    FormState :=
  let errs := fun f =>
    if f = name then validateField name value else st.fieldErrors f
  let fd := st.formData.set name value
  let fd :=
    if name = FieldName.program then { fd with yearLevel := "" } else fd
  { formData := fd, fieldErrors := errs }

/-- The identity record assembled on successful submission. -/
structure Identity where
  studentNumber : String
  fullName : String
  program : String
  yearLevel : String
  registrationDate : String
  id : String
deriving DecidableEq, Repr

/-- generateStaticIdentity: the record built from the form data, the ISO
timestamp string and the Date.now() millisecond value, with fullName the
template literal interpolation of firstName, a space, and lastName. -/
def generateStaticIdentity (fd : FormData) (timestamp : String) (now : Nat) :
    Identity :=
  { studentNumber := fd.studentNumber
    fullName := fd.firstName ++ " " ++ fd.lastName
    program := fd.program
    yearLevel := fd.yearLevel
    registrationDate := timestamp
    id := "CSCB-" ++ fd.studentNumber ++ "-" ++ toString now }

/-- The hexadecimal digit JSON.stringify uses in a unicode escape. -/
def hexDigit (n : Nat) : Char :=
  if n < 10 then Char.ofNat ('0'.toNat + n) else Char.ofNat ('a'.toNat + (n - 10))

/-- Four lowercase hexadecimal digits of a code point below 0x10000. -/
def hex4 (n : Nat) : String :=
  String.mk [hexDigit (n / 4096 % 16), hexDigit (n / 256 % 16),
             hexDigit (n / 16 % 16), hexDigit (n % 16)]

/-- JSON.stringify's escaping of one character inside a string literal. -/
def escapeJsonChar (c : Char) : String :=
  if c = '"' then "\\\""
  else if c = '\\' then "\\\\"
  else if c = '\x08' then "\\b"
  else if c = '\t' then "\\t"
  else if c = '\n' then "\\n"
  else if c = '\x0c' then "\\f"
  else if c = '\r' then "\\r"
  else if c.toNat < 0x20 then "\\u" ++ hex4 c.toNat
  else String.singleton c

/-- A JSON string literal for s, as JSON.stringify produces it. -/
def jsonStr (s : String) : String :=
  "\"" ++ String.join (s.data.map escapeJsonChar) ++ "\""

/-- JSON.stringify of an identity record: object keys in insertion order,
each value a JSON string literal. -/
def stringifyIdentity (i : Identity) : String :=
  "\x7b\"studentNumber\":" ++ jsonStr i.studentNumber ++
  ",\"fullName\":" ++ jsonStr i.fullName ++
  ",\"program\":" ++ jsonStr i.program ++
  ",\"yearLevel\":" ++ jsonStr i.yearLevel ++
  ",\"registrationDate\":" ++ jsonStr i.registrationDate ++
  ",\"id\":" ++ jsonStr i.id ++ "\x7d"

/-- The browser localStorage, modelled as a map from keys to stored strings. -/
def Storage := String → Option String

/-- localStorage.setItem: overwrite the value at one key. -/
def storageSetItem (st : Storage) (key value : String) : Storage :=
  fun k => if k = key then some value else st k

/-- The observable outcome of handleSubmit: blocked by the all-fields-required
alert, blocked by the fix-the-errors alert, or a successful registration
carrying the built identity and the updated storage. -/
inductive SubmitResult where
  | blockedIncomplete : SubmitResult
  | blockedErrors : SubmitResult
  | success : Identity → Storage → SubmitResult

/-- handleSubmit: block when any of the five fields is empty, then block when
some entry of the error map is a non-empty message, otherwise build the
identity record and write its JSON serialization to storage under the key
student_ followed by the student number. -/
def handleSubmit (st : FormState) (storage : Storage) (timestamp : String)
    (now : Nat) : SubmitResult :=
  if st.formData.studentNumber.isEmpty || st.formData.lastName.isEmpty ||
     st.formData.firstName.isEmpty || st.formData.program.isEmpty ||
     st.formData.yearLevel.isEmpty then
    SubmitResult.blockedIncomplete
  else if FieldName.elems.any (fun f => !(st.fieldErrors f).isEmpty) then
    SubmitResult.blockedErrors
  else
    let identity := generateStaticIdentity st.formData timestamp now
    SubmitResult.success identity
      (storageSetItem storage ("student_" ++ st.formData.studentNumber)
        (stringifyIdentity identity))

/-- The storage after a submission attempt: the updated map on success,
the prior map when the submission was blocked. -/
def resultingStorage (storage : Storage) : SubmitResult → Storage
  | SubmitResult.success _ s => s
  | _ => storage

/-! ### Helper lemmas about the embedded definitions -/

/-- Every field name occurs in the enumeration of the five fields. -/
theorem FieldName.mem_elems (f : FieldName) : f ∈ FieldName.elems := by
  cases f <;> simp [FieldName.elems]

/-- A string different from the empty string has isEmpty false. -/
theorem isEmpty_false_of_ne (s : String) (h : s ≠ "") : s.isEmpty = false := by
  rw [Bool.eq_false_iff]
  intro hh
  exact h ((String.isEmpty_iff s).mp hh)

/-- expectChar succeeds exactly when the list starts with the expected
character, and returns the tail. -/
theorem expectChar_eq_some (c : Char) (l r : List Char) :
    expectChar c l = some r ↔ l = c :: r := by
  cases l with
  | nil => simp [expectChar]
  | cons x rest =>
    by_cases hx : x = c
    · subst hx
      simp [expectChar]
    · simp [expectChar, hx]

/-- digitRun k succeeds exactly when the list starts with k digit characters,
and returns the remainder after them. -/
theorem digitRun_eq_some (k : Nat) : ∀ l r : List Char,
    digitRun k l = some r ↔
      ∃ y, y.length = k ∧ (∀ c ∈ y, c.isDigit = true) ∧ l = y ++ r := by
  induction k with
  | zero =>
    intro l r
    simp only [digitRun, Option.some.injEq]
    constructor
    · intro h
      exact ⟨[], rfl, by simp, by simp [h]⟩
    · rintro ⟨y, hy1, _, hy3⟩
      rw [List.length_eq_zero] at hy1
      subst hy1
      simpa using hy3
  | succ k ih =>
    intro l r
    cases l with
    | nil =>
      simp only [digitRun]
      constructor
      · intro h
        cases h
      · rintro ⟨y, hy1, _, hy3⟩
        cases y with
        | nil => simp at hy1
        | cons d y2 => simp at hy3
    | cons c rest =>
      simp only [digitRun]
      by_cases hc : c.isDigit = true
      · rw [if_pos hc, ih rest r]
        constructor
        · rintro ⟨y, hy1, hy2, hy3⟩
          refine ⟨c :: y, by simp [hy1], ?_, by simp [hy3]⟩
          intro a ha
          rcases List.mem_cons.mp ha with h | h
          · subst h
            exact hc
          · exact hy2 a h
        · rintro ⟨y, hy1, hy2, hy3⟩
          cases y with
          | nil => simp at hy1
          | cons d y2 =>
            obtain ⟨hcd, hrest⟩ := List.cons_eq_cons.mp hy3
            refine ⟨y2, by simpa using hy1, ?_, hrest⟩
            intro a ha
            exact hy2 a (List.mem_cons_of_mem d ha)
      · rw [if_neg hc]
        constructor
        · intro h
          cases h
        · rintro ⟨y, hy1, hy2, hy3⟩
          cases y with
          | nil => simp at hy1
          | cons d y2 =>
            obtain ⟨hcd, _⟩ := List.cons_eq_cons.mp hy3
            exact absurd (hy2 d (List.mem_cons_self d y2)) (hcd ▸ hc)

/-- The strict student-ID format, stated structurally: four digit characters,
a hyphen, five digit characters, then the literal tail -TG-0. -/
def StrictIdFormat (s : String) : Prop :=
  ∃ y n : List Char, y.length = 4 ∧ n.length = 5 ∧
    (∀ c ∈ y, c.isDigit = true) ∧ (∀ c ∈ n, c.isDigit = true) ∧
    s.data = y ++ '-' :: (n ++ ['-', 'T', 'G', '-', '0'])

/-- The executable regex matcher accepts exactly the strings of the strict
structural format. -/
theorem matchesStudentIdPattern_iff (s : String) :
    matchesStudentIdPattern s = true ↔ StrictIdFormat s := by
  unfold matchesStudentIdPattern
  rw [beq_iff_eq, Option.bind_eq_some]
  constructor
  · rintro ⟨r1, h1, h2⟩
    rw [Option.bind_eq_some] at h1
    obtain ⟨r0, h0, he⟩ := h1
    rw [digitRun_eq_some] at h0 h2
    obtain ⟨y, hy1, hy2, hy3⟩ := h0
    rw [expectChar_eq_some] at he
    obtain ⟨n, hn1, hn2, hn3⟩ := h2
    exact ⟨y, n, hy1, hn1, hy2, hn2, by rw [hy3, he, hn3]⟩
  · rintro ⟨y, n, hy1, hn1, hy2, hn2, hs⟩
    refine ⟨n ++ ['-', 'T', 'G', '-', '0'], ?_, ?_⟩
    · rw [Option.bind_eq_some]
      refine ⟨'-' :: (n ++ ['-', 'T', 'G', '-', '0']), ?_, ?_⟩
      · rw [digitRun_eq_some]
        exact ⟨y, hy1, hy2, hs⟩
      · rw [expectChar_eq_some]
    · rw [digitRun_eq_some]
      exact ⟨n, hn1, hn2, rfl⟩

/-- For a non-empty value, the later revision's student-number validation
returns the empty error exactly when the strict matcher accepts the value. -/
theorem validateField_studentNumber_eq_empty (v : String) (h : v ≠ "") :
    validateField FieldName.studentNumber v = "" ↔
      matchesStudentIdPattern v = true := by
  have hne : v.isEmpty = false := isEmpty_false_of_ne v h
  cases hm : matchesStudentIdPattern v <;>
    simp [validateField, hne, hm]

/-- For a non-empty value, name validation returns the empty error exactly
when every character is in the name character class. -/
theorem validateField_name_eq_empty (v : String) (h : v ≠ "") (fld : FieldName)
    (hf : fld = FieldName.firstName ∨ fld = FieldName.lastName) :
    validateField fld v = "" ↔ v.data.all isNameChar = true := by
  have hne : v.isEmpty = false := isEmpty_false_of_ne v h
  rcases hf with hf | hf <;> subst hf <;>
    cases ha : v.data.all isNameChar <;> simp [validateField, hne, ha]

/-- When all five fields are non-empty and the error map is everywhere empty,
handleSubmit builds the identity record and writes its serialization to
storage under the student_ key. -/
theorem handleSubmit_success (st : FormState) (storage : Storage) (ts : String)
    (now : Nat) (h1 : st.formData.studentNumber ≠ "")
    (h2 : st.formData.lastName ≠ "") (h3 : st.formData.firstName ≠ "")
    (h4 : st.formData.program ≠ "") (h5 : st.formData.yearLevel ≠ "")
    (herr : ∀ f, st.fieldErrors f = "") :
    handleSubmit st storage ts now =
      SubmitResult.success (generateStaticIdentity st.formData ts now)
        (storageSetItem storage ("student_" ++ st.formData.studentNumber)
          (stringifyIdentity (generateStaticIdentity st.formData ts now))) := by
  have e1 := isEmpty_false_of_ne _ h1
  have e2 := isEmpty_false_of_ne _ h2
  have e3 := isEmpty_false_of_ne _ h3
  have e4 := isEmpty_false_of_ne _ h4
  have e5 := isEmpty_false_of_ne _ h5
  simp [handleSubmit, e1, e2, e3, e4, e5, FieldName.elems, herr,
    String.isEmpty_iff]

/-- When some field is empty or some error entry is non-empty, handleSubmit
stops at one of its two blocking branches. -/
theorem handleSubmit_blocked (st : FormState) (storage : Storage) (ts : String)
    (now : Nat)
    (h : st.formData.studentNumber = "" ∨ st.formData.lastName = "" ∨
      st.formData.firstName = "" ∨ st.formData.program = "" ∨
      st.formData.yearLevel = "" ∨ ∃ f, st.fieldErrors f ≠ "") :
    handleSubmit st storage ts now = SubmitResult.blockedIncomplete ∨
      handleSubmit st storage ts now = SubmitResult.blockedErrors := by
  unfold handleSubmit
  by_cases hc : (st.formData.studentNumber.isEmpty ||
      st.formData.lastName.isEmpty || st.formData.firstName.isEmpty ||
      st.formData.program.isEmpty || st.formData.yearLevel.isEmpty) = true
  · left
    rw [if_pos hc]
  · right
    rw [if_neg hc]
    obtain ⟨f, hf⟩ : ∃ f, st.fieldErrors f ≠ "" := by
      rcases h with h | h | h | h | h | h
      · exact absurd (by simp [Bool.or_eq_true, String.isEmpty_iff, h]) hc
      · exact absurd (by simp [Bool.or_eq_true, String.isEmpty_iff, h]) hc
      · exact absurd (by simp [Bool.or_eq_true, String.isEmpty_iff, h]) hc
      · exact absurd (by simp [Bool.or_eq_true, String.isEmpty_iff, h]) hc
      · exact absurd (by simp [Bool.or_eq_true, String.isEmpty_iff, h]) hc
      · exact h
    have hany : FieldName.elems.any (fun f => !(st.fieldErrors f).isEmpty) = true :=
      List.any_eq_true.mpr ⟨f, FieldName.mem_elems f, by
        simp [isEmpty_false_of_ne _ hf]⟩
    rw [if_pos hany]

/-- The example form data of the specification's scenario. -/
def anaForm : FormData :=
  { studentNumber := "2023-00011-TG-0", lastName := "Cruz", firstName := "Ana",
    program := "Diploma in Information Technology", yearLevel := "2nd Year" }

/-- The example form state: Ana's data with an everywhere-empty error map. -/
def anaState : FormState := { formData := anaForm, fieldErrors := fun _ => "" }

/-- An empty localStorage. -/
def emptyStorage : Storage := fun _ => none

/-- A form state matching the specification scenario: program chosen but
yearLevel left empty, no validation errors. -/
def incompleteState : FormState :=
  { formData := { anaForm with yearLevel := "" }, fieldErrors := fun _ => "" }

/-- A form state whose student number is the invalid "abc" and whose error
map carries the corresponding message, all other fields filled. -/
def badIdState : FormState :=
  { formData := { anaForm with studentNumber := "abc" },
    fieldErrors := fun f =>
      if f = FieldName.studentNumber then
        "Student ID must follow format: YYYY-NNNNN-TG-0 (e.g., 2023-00000-TG-0)"
      else "" }

/-- The form data with every field empty (the initial React state). -/
def blankForm : FormData :=
  { studentNumber := "", lastName := "", firstName := "", program := "",
    yearLevel := "" }

/-- Ana's state with the first name replaced by a single space. -/
def spaceNameState : FormState :=
  { formData := { anaForm with firstName := " " }, fieldErrors := fun _ => "" }

/-- Ana's state with the last name replaced by a single space. -/
def spaceSurnameState : FormState :=
  { formData := { anaForm with lastName := " " }, fieldErrors := fun _ => "" }

/-! ### The claims -/

/-- C1: whenever one of the five fields is empty or some error entry is a
non-empty message, handleSubmit blocks: it never returns a success (so no
identity record is built) and the storage after the attempt is the prior
storage unchanged. -/
theorem spec_c1 (st : FormState) (storage : Storage) (ts : String) (now : Nat)
    (h : st.formData.studentNumber = "" ∨ st.formData.lastName = "" ∨
      st.formData.firstName = "" ∨ st.formData.program = "" ∨
      st.formData.yearLevel = "" ∨ ∃ f, st.fieldErrors f ≠ "") :
    (∀ i s2, handleSubmit st storage ts now ≠ SubmitResult.success i s2) ∧
      resultingStorage storage (handleSubmit st storage ts now) = storage := by
  rcases handleSubmit_blocked st storage ts now h with hb | hb <;> rw [hb] <;>
    exact ⟨fun i s2 hx => SubmitResult.noConfusion hx, rfl⟩

/-- Witness for C1 at the specification scenario: yearLevel empty after a
program was chosen; the submission leaves storage unchanged and is not the
success outcome. -/
theorem spec_c1_witness :
    (handleSubmit incompleteState emptyStorage "2025-09-01T00:00:00.000Z" 0 ≠
      SubmitResult.success
        (generateStaticIdentity incompleteState.formData
          "2025-09-01T00:00:00.000Z" 0) emptyStorage) ∧
    resultingStorage emptyStorage
        (handleSubmit incompleteState emptyStorage
          "2025-09-01T00:00:00.000Z" 0) = emptyStorage :=
  ⟨(spec_c1 incompleteState emptyStorage "2025-09-01T00:00:00.000Z" 0
      (Or.inr (Or.inr (Or.inr (Or.inr (Or.inl rfl)))))).1 _ _,
   (spec_c1 incompleteState emptyStorage "2025-09-01T00:00:00.000Z" 0
      (Or.inr (Or.inr (Or.inr (Or.inr (Or.inl rfl)))))).2⟩

/-- C2: for well-formed inputs (strict student number, letter-only non-empty
names, a listed program, a year level from that program's list) the built
identity record has fullName equal to firstName, one space, lastName, with no
normalization. -/
theorem spec_c2 (fd : FormData) (ts : String) (now : Nat)
    (h1 : matchesStudentIdPattern fd.studentNumber = true)
    (h2 : fd.lastName ≠ "") (h3 : ∀ c ∈ fd.lastName.data, c.isAlpha = true)
    (h4 : fd.firstName ≠ "") (h5 : ∀ c ∈ fd.firstName.data, c.isAlpha = true)
    (h6 : fd.program ∈ programs)
    (h7 : fd.yearLevel ∈ getYearLevels fd.program) :
    (generateStaticIdentity fd ts now).fullName =
      fd.firstName ++ " " ++ fd.lastName := rfl

/-- Witness for C2 at the specification scenario. -/
theorem spec_c2_witness :
    (generateStaticIdentity anaForm "2025-09-01T00:00:00.000Z"
      1756684800000).fullName = "Ana Cruz" :=
  (spec_c2 anaForm "2025-09-01T00:00:00.000Z" 1756684800000 (by decide)
    (by decide) (by decide) (by decide) (by decide) (by decide)
    (by decide)).trans (by decide)

/-- C3: a submission with all five fields filled and an error-free map
succeeds, writing the JSON-serialized identity record under exactly the key
student_ followed by the student number; at Ana's example input the record's
fullName is Ana Cruz. -/
theorem spec_c3 (st : FormState) (storage : Storage) (ts : String) (now : Nat)
    (hfields : st.formData.studentNumber ≠ "" ∧ st.formData.lastName ≠ "" ∧
      st.formData.firstName ≠ "" ∧ st.formData.program ≠ "" ∧
      st.formData.yearLevel ≠ "")
    (herr : ∀ f, st.fieldErrors f = "") :
    handleSubmit st storage ts now =
      SubmitResult.success (generateStaticIdentity st.formData ts now)
        (storageSetItem storage ("student_" ++ st.formData.studentNumber)
          (stringifyIdentity (generateStaticIdentity st.formData ts now))) ∧
    storageSetItem storage ("student_" ++ st.formData.studentNumber)
        (stringifyIdentity (generateStaticIdentity st.formData ts now))
        ("student_" ++ st.formData.studentNumber) =
      some (stringifyIdentity (generateStaticIdentity st.formData ts now)) ∧
    (st.formData = anaForm →
      (generateStaticIdentity st.formData ts now).fullName = "Ana Cruz") := by
  obtain ⟨h1, h2, h3, h4, h5⟩ := hfields
  refine ⟨handleSubmit_success st storage ts now h1 h2 h3 h4 h5 herr, ?_, ?_⟩
  · simp [storageSetItem]
  · intro hfd
    rw [hfd]
    rfl

/-- Witness for C3 at Ana's input on an empty storage. -/
theorem spec_c3_witness :
    handleSubmit anaState emptyStorage "2025-09-01T00:00:00.000Z"
        1756684800000 =
      SubmitResult.success
        (generateStaticIdentity anaState.formData "2025-09-01T00:00:00.000Z"
          1756684800000)
        (storageSetItem emptyStorage
          ("student_" ++ anaState.formData.studentNumber)
          (stringifyIdentity (generateStaticIdentity anaState.formData
            "2025-09-01T00:00:00.000Z" 1756684800000))) ∧
    storageSetItem emptyStorage ("student_" ++ anaState.formData.studentNumber)
        (stringifyIdentity (generateStaticIdentity anaState.formData
          "2025-09-01T00:00:00.000Z" 1756684800000))
        ("student_" ++ anaState.formData.studentNumber) =
      some (stringifyIdentity (generateStaticIdentity anaState.formData
        "2025-09-01T00:00:00.000Z" 1756684800000)) ∧
    (anaState.formData = anaForm →
      (generateStaticIdentity anaState.formData "2025-09-01T00:00:00.000Z"
        1756684800000).fullName = "Ana Cruz") :=
  spec_c3 anaState emptyStorage "2025-09-01T00:00:00.000Z" 1756684800000
    ⟨by decide, by decide, by decide, by decide, by decide⟩ (fun _ => rfl)

/-- A count at most 5 yields at most 100 percent under the 5-field rule. -/
theorem fifth_mul_hundred_le (n : Nat) (h : n ≤ 5) :
    ((n : Rat) / 5) * 100 ≤ 100 := by
  have hn : (n : Rat) ≤ 5 := by exact_mod_cast h
  have hr : ((n : Rat) / 5) * 100 = 20 * (n : Rat) := by ring
  rw [hr]
  linarith

/-- A count at most 4 yields at most 100 percent under the 4-field rule. -/
theorem quarter_mul_hundred_le (n : Nat) (h : n ≤ 4) :
    ((n : Rat) / 4) * 100 ≤ 100 := by
  have hn : (n : Rat) ≤ 4 := by exact_mod_cast h
  have hr : ((n : Rat) / 4) * 100 = 25 * (n : Rat) := by ring
  rw [hr]
  linarith

/-- The base-field count never exceeds four. -/
theorem baseFilledCount_le (fd : FormData) : baseFilledCount fd ≤ 4 :=
  le_trans (List.length_filter_le _ _) (by simp)

/-- C4: calculateProgress is 0 on the all-empty state, 100 when all five
fields are filled, equals baseFilled/4 * 100 whenever no program is chosen
(so yearLevel enters the denominator only once a program is chosen), and
never exceeds 100. -/
theorem spec_c4 (fd : FormData) :
    ((∀ f, fd.get f = "") → calculateProgress fd = 0) ∧
    ((∀ f, fd.get f ≠ "") → calculateProgress fd = 100) ∧
    (fd.program = "" →
      calculateProgress fd = ((baseFilledCount fd : Rat) / 4) * 100) ∧
    calculateProgress fd ≤ 100 := by
  obtain ⟨a, b, c, d, e⟩ := fd
  refine ⟨?_, ?_, ?_, ?_⟩
  · intro h
    have ha := h FieldName.studentNumber
    have hb := h FieldName.lastName
    have hc := h FieldName.firstName
    have hd := h FieldName.program
    have he := h FieldName.yearLevel
    simp only [FormData.get] at ha hb hc hd he
    subst ha; subst hb; subst hc; subst hd; subst he
    have hbase : baseFilledCount
        { studentNumber := "", lastName := "", firstName := "", program := "",
          yearLevel := "" } = 0 := rfl
    simp [calculateProgress, hbase]
  · intro h
    have ha := h FieldName.studentNumber
    have hb := h FieldName.lastName
    have hc := h FieldName.firstName
    have hd := h FieldName.program
    have he := h FieldName.yearLevel
    simp only [FormData.get] at ha hb hc hd he
    have ha2 : (a != "") = true := bne_iff_ne.mpr ha
    have hb2 : (b != "") = true := bne_iff_ne.mpr hb
    have hc2 : (c != "") = true := bne_iff_ne.mpr hc
    have hd2 : (d != "") = true := bne_iff_ne.mpr hd
    have hbase : baseFilledCount ⟨a, b, c, d, e⟩ = 4 := by
      simp [baseFilledCount, FormData.get, ha2, hb2, hc2, hd2]
    simp [calculateProgress, hbase, hd, he]
  · intro h
    subst h
    simp [calculateProgress]
  · by_cases hp : d = ""
    · subst hp
      have heq : calculateProgress ⟨a, b, c, "", e⟩ =
          ((baseFilledCount ⟨a, b, c, "", e⟩ : Rat) / 4) * 100 := by
        simp [calculateProgress]
      rw [heq]
      exact quarter_mul_hundred_le _ (baseFilledCount_le _)
    · have hb4 := baseFilledCount_le ⟨a, b, c, d, e⟩
      simp only [calculateProgress]
      rw [if_pos (bne_iff_ne.mpr hp)]
      by_cases hy : e = ""
      · rw [if_neg (by simp [hy])]
        exact fifth_mul_hundred_le _ (le_trans hb4 (by norm_num))
      · rw [if_pos (bne_iff_ne.mpr hy)]
        exact fifth_mul_hundred_le _ (by omega)

/-- Witness for C4: 0 percent on the blank form, 100 percent on Ana's. -/
theorem spec_c4_witness :
    calculateProgress blankForm = 0 ∧ calculateProgress anaForm = 100 :=
  ⟨(spec_c4 blankForm).1 (fun f => by cases f <;> rfl),
   (spec_c4 anaForm).2.1 (fun f => by cases f <;> decide)⟩

/-- C5: under the strict canonical rule a non-empty student number validates
exactly when it has the structural form of four digits, hyphen, five digits,
hyphen, TG, hyphen, 0; the input abc yields a non-empty error; and with a
non-empty studentNumber error entry the submission is blocked even when all
five fields are filled. -/
theorem spec_c5 :
    (∀ v : String, v ≠ "" →
      (validateField FieldName.studentNumber v = "" ↔ StrictIdFormat v)) ∧
    validateField FieldName.studentNumber "abc" ≠ "" ∧
    (∀ (st : FormState) (storage : Storage) (ts : String) (now : Nat),
      st.fieldErrors FieldName.studentNumber ≠ "" →
      st.formData.studentNumber ≠ "" → st.formData.lastName ≠ "" →
      st.formData.firstName ≠ "" → st.formData.program ≠ "" →
      st.formData.yearLevel ≠ "" →
      handleSubmit st storage ts now = SubmitResult.blockedErrors) := by
  refine ⟨?_, by decide, ?_⟩
  · intro v hv
    rw [validateField_studentNumber_eq_empty v hv, matchesStudentIdPattern_iff]
  · intro st storage ts now herr h1 h2 h3 h4 h5
    have e1 := isEmpty_false_of_ne _ h1
    have e2 := isEmpty_false_of_ne _ h2
    have e3 := isEmpty_false_of_ne _ h3
    have e4 := isEmpty_false_of_ne _ h4
    have e5 := isEmpty_false_of_ne _ h5
    unfold handleSubmit
    rw [if_neg (by simp [e1, e2, e3, e4, e5])]
    rw [if_pos (List.any_eq_true.mpr ⟨FieldName.studentNumber,
      FieldName.mem_elems _, by simp [isEmpty_false_of_ne _ herr]⟩)]

/-- Witness for C5: the canonical example accepted, and the abc state with
its recorded error blocked at submit despite all fields being filled. -/
theorem spec_c5_witness :
    validateField FieldName.studentNumber "2023-00011-TG-0" = "" ∧
    handleSubmit badIdState emptyStorage "2025-09-01T00:00:00.000Z" 0 =
      SubmitResult.blockedErrors :=
  ⟨(spec_c5.1 "2023-00011-TG-0" (by decide)).mpr
      ⟨['2', '0', '2', '3'], ['0', '0', '0', '1', '1'], by decide, by decide,
        by decide, by decide, by decide⟩,
   spec_c5.2.2 badIdState emptyStorage "2025-09-01T00:00:00.000Z" 0
     (by decide) (by decide) (by decide) (by decide) (by decide) (by decide)⟩

/-- C6: changing the program through the input handler always leaves
yearLevel empty, whatever it was before. -/
theorem spec_c6 (st : FormState) (v : String) :
    (handleInputChange st FieldName.program v).formData.yearLevel = "" := rfl

/-- C7: for non-empty values the name fields validate exactly when every
character is an ASCII letter or a whitespace character, and the empty string
never carries a name error (required-ness is a submit-time concern). -/
theorem spec_c7 :
    (∀ v : String, v ≠ "" →
      ((validateField FieldName.firstName v = "" ↔
          ∀ c ∈ v.data, (c.isAlpha || isJsSpace c) = true) ∧
       (validateField FieldName.lastName v = "" ↔
          ∀ c ∈ v.data, (c.isAlpha || isJsSpace c) = true))) ∧
    validateField FieldName.firstName "" = "" ∧
    validateField FieldName.lastName "" = "" := by
  refine ⟨?_, rfl, rfl⟩
  intro v hv
  constructor
  · rw [validateField_name_eq_empty v hv _ (Or.inl rfl), List.all_eq_true]
    exact Iff.rfl
  · rw [validateField_name_eq_empty v hv _ (Or.inr rfl), List.all_eq_true]
    exact Iff.rfl

/-- Witness for C7: a name with an inner space validates. -/
theorem spec_c7_witness : validateField FieldName.firstName "Mary Jane" = "" :=
  ((spec_c7.1 "Mary Jane" (by decide)).1).mpr (by decide)

/-- C8: the input handler replaces exactly the changed field's error entry
with the freshly computed error and leaves every other entry untouched. -/
theorem spec_c8 (st : FormState) (name : FieldName) (v : String) :
    (handleInputChange st name v).fieldErrors name = validateField name v ∧
    ∀ m : FieldName, m ≠ name →
      (handleInputChange st name v).fieldErrors m = st.fieldErrors m := by
  constructor
  · simp [handleInputChange]
  · intro m hm
    simp [handleInputChange, hm]

/-- Witness for C8: editing firstName leaves the lastName error entry as it
was. -/
theorem spec_c8_witness :
    (handleInputChange anaState FieldName.firstName "Maria").fieldErrors
      FieldName.lastName = anaState.fieldErrors FieldName.lastName :=
  (spec_c8 anaState FieldName.firstName "Maria").2 FieldName.lastName
    (by decide)

/-- C9: the two observed student-number rules disagree as functions: abc is
non-empty, passes the earlier alphanumeric-and-hyphen rule with an empty
error, yet is rejected by the strict rule with a non-empty error. -/
theorem spec_c9 : ∃ v : String, v ≠ "" ∧
    validateField_v0 FieldName.studentNumber v = "" ∧
    validateField FieldName.studentNumber v ≠ "" :=
  ⟨"abc", by decide, by decide, by decide⟩

/-- C10: a non-empty whitespace-only value passes name validation for both
name fields, counts as filled at submit time, and a submission carrying it as
the first name or as the last name succeeds, persisting a record whose
fullName contains that whitespace-only value verbatim (as the part before,
respectively after, the separating space). -/
theorem spec_c10 (v : String) (hne : v ≠ "")
    (hws : ∀ c ∈ v.data, isJsSpace c = true) :
    validateField FieldName.firstName v = "" ∧
    validateField FieldName.lastName v = "" ∧
    (∀ (st : FormState) (storage : Storage) (ts : String) (now : Nat),
      st.formData.firstName = v →
      st.formData.studentNumber ≠ "" → st.formData.lastName ≠ "" →
      st.formData.program ≠ "" → st.formData.yearLevel ≠ "" →
      (∀ f, st.fieldErrors f = "") →
      handleSubmit st storage ts now =
        SubmitResult.success (generateStaticIdentity st.formData ts now)
          (storageSetItem storage ("student_" ++ st.formData.studentNumber)
            (stringifyIdentity (generateStaticIdentity st.formData ts now))) ∧
      (generateStaticIdentity st.formData ts now).fullName =
        v ++ " " ++ st.formData.lastName) ∧
    (∀ (st : FormState) (storage : Storage) (ts : String) (now : Nat),
      st.formData.lastName = v →
      st.formData.studentNumber ≠ "" → st.formData.firstName ≠ "" →
      st.formData.program ≠ "" → st.formData.yearLevel ≠ "" →
      (∀ f, st.fieldErrors f = "") →
      handleSubmit st storage ts now =
        SubmitResult.success (generateStaticIdentity st.formData ts now)
          (storageSetItem storage ("student_" ++ st.formData.studentNumber)
            (stringifyIdentity (generateStaticIdentity st.formData ts now))) ∧
      (generateStaticIdentity st.formData ts now).fullName =
        st.formData.firstName ++ " " ++ v) := by
  have hall : v.data.all isNameChar = true := by
    rw [List.all_eq_true]
    intro c hc
    simp [isNameChar, hws c hc]
  refine ⟨?_, ?_, ?_, ?_⟩
  · rw [validateField_name_eq_empty v hne _ (Or.inl rfl)]
    exact hall
  · rw [validateField_name_eq_empty v hne _ (Or.inr rfl)]
    exact hall
  · intro st storage ts now hfv h1 h2 h4 h5 herr
    have h3 : st.formData.firstName ≠ "" := by
      rw [hfv]
      exact hne
    refine ⟨handleSubmit_success st storage ts now h1 h2 h3 h4 h5 herr, ?_⟩
    simp [generateStaticIdentity, hfv]
  · intro st storage ts now hlv h1 h3 h4 h5 herr
    have h2 : st.formData.lastName ≠ "" := by
      rw [hlv]
      exact hne
    refine ⟨handleSubmit_success st storage ts now h1 h2 h3 h4 h5 herr, ?_⟩
    simp [generateStaticIdentity, hlv]

/-- Witness for C10: a single space validates as either name, and the records
built from Ana's data with a single-space first name, respectively last name,
carry that space verbatim inside fullName. -/
theorem spec_c10_witness :
    validateField FieldName.firstName " " = "" ∧
    validateField FieldName.lastName " " = "" ∧
    (generateStaticIdentity spaceNameState.formData "2025-09-01T00:00:00.000Z"
        0).fullName = " " ++ " " ++ spaceNameState.formData.lastName ∧
    (generateStaticIdentity spaceSurnameState.formData
        "2025-09-01T00:00:00.000Z"
        0).fullName = spaceSurnameState.formData.firstName ++ " " ++ " " := by
  have h := spec_c10 " " (by decide) (by decide)
  exact ⟨h.1, h.2.1,
    (h.2.2.1 spaceNameState emptyStorage "2025-09-01T00:00:00.000Z" 0
      rfl (by decide) (by decide) (by decide) (by decide) (fun _ => rfl)).2,
    (h.2.2.2 spaceSurnameState emptyStorage "2025-09-01T00:00:00.000Z" 0
      rfl (by decide) (by decide) (by decide) (by decide) (fun _ => rfl)).2⟩

end CSCB
